import Mathlib

/-!
Verification of the screen-recorder application (`gravador_tela.py`):
a shallow embedding of its audio-source detection, encoder command
construction, recording-thread lifecycle and GUI controller state
machine, together with theorems about the documented behaviour.

External effects (subprocess launches, their exit statuses and standard
error, the filesystem) are modelled as explicit inputs/outputs of pure
functions; each function mirrors one Python function of the source.
-/

/-! ## String containment (Python `in` on byte strings) -/

/-- Boolean prefix test on character lists. -/
def listPrefix : List Char → List Char → Bool
  | [], _ => true
  | _ :: _, [] => false
  | a :: as, b :: bs => a == b && listPrefix as bs

/-- Boolean substring test on character lists: `needle` occurs as a prefix
of some suffix of the haystack.  Models Python `needle in hay`. -/
def listContains (needle : List Char) : List Char → Bool
  | [] => listPrefix needle []
  | b :: bs => listPrefix needle (b :: bs) || listContains needle bs

/-- `strContains hay needle` models Python `needle in hay`. -/
def strContains (hay needle : String) : Bool :=
  listContains needle.toList hay.toList

/-! ## Audio detection (`detect_audio_source`) -/

/-- The outcomes of the two external `pactl` shell-outs made by
`detect_audio_source`.  `defaultSink = none` models
`pactl get-default-sink` raising (non-zero exit or timeout); `some s`
models success with stripped stdout `s`.  `infoOk` models whether
`pactl info` succeeds. -/
structure AudioEnv where
  defaultSink : Option String
  infoOk : Bool
deriving DecidableEq

/-- `detect_audio_source`: priority PulseAudio monitor source →
PulseAudio default → ALSA default.  The empty-output case falls through
to the next step exactly as `if out:` does in the source. -/
def detect_audio_source (env : AudioEnv) : String × String :=
  match env.defaultSink with
  | some out =>
      if out ≠ "" then ("pulse", out ++ ".monitor")
      else if env.infoOk then ("pulse", "default") else ("alsa", "default")
  | none =>
      if env.infoOk then ("pulse", "default") else ("alsa", "default")

/-! ## Quality → CRF table and ffmpeg command construction
(`RecorderThread.run`) -/

/-- The `crf_map` dictionary of `RecorderThread.run`. -/
def crf_map : List (String × String) :=
  [("Low", "36"), ("Medium", "28"), ("High", "20"), ("Ultra", "14")]

/-- `crf_map.get(self.quality, "28")`. -/
def crfOf (quality : String) : String :=
  (List.lookup quality crf_map).getD "28"

/-- The ffmpeg command line built in `RecorderThread.run` from the
display, the already-resolved CRF value, the audio flag, the detected
audio source and the output path. -/
def mainCmd (display crf : String) (audio : Bool)
    (audioSrc : String × String) (outputPath : String) : List String :=
  ["ffmpeg", "-y", "-f", "x11grab", "-framerate", "30",
   "-i", display ++ "+0,0"]
  ++ (if audio then ["-f", audioSrc.1, "-i", audioSrc.2] else [])
  ++ ["-c:v", "libx264", "-preset", "ultrafast",
      "-crf", crf, "-pix_fmt", "yuv420p"]
  ++ (if audio then ["-c:a", "aac", "-b:a", "128k"] else [])
  ++ [outputPath]

/-- The ffmpeg command line built in `RecorderThread._retry_no_audio`. -/
def retryCmd (display crf outputPath : String) : List String :=
  ["ffmpeg", "-y", "-f", "x11grab", "-framerate", "30",
   "-i", display ++ "+0,0",
   "-c:v", "libx264", "-preset", "ultrafast",
   "-crf", crf, "-pix_fmt", "yuv420p",
   outputPath]

/-- The ordinal quality scale of the UI combo box, in ascending order. -/
inductive Quality
  | low | medium | high | ultra
deriving DecidableEq

/-- Position on the ordinal scale (Low is lowest). -/
def Quality.idx : Quality → Nat
  | .low => 0
  | .medium => 1
  | .high => 2
  | .ultra => 3

/-- The combo-box label of each quality level. -/
def Quality.label : Quality → String
  | .low => "Low"
  | .medium => "Medium"
  | .high => "High"
  | .ultra => "Ultra"

/-- Value of a decimal digit character. -/
def digitVal : Char → Nat
  | '0' => 0 | '1' => 1 | '2' => 2 | '3' => 3 | '4' => 4
  | '5' => 5 | '6' => 6 | '7' => 7 | '8' => 8 | '9' => 9
  | _ => 0

/-- Decimal value of a digit list. -/
def natOfDigits (acc : Nat) : List Char → Nat
  | [] => acc
  | c :: cs => natOfDigits (acc * 10 + digitVal c) cs

/-- The CRF value of a quality level, read as a number. -/
def Quality.crfNat (q : Quality) : Nat :=
  natOfDigits 0 (crfOf q.label).toList

/-! ## Recording thread (`RecorderThread.run` / `_retry_no_audio` /
`stop`) -/

/-- The signals the thread can emit back to the GUI:
`finished(path)` or `error(msg)`. -/
inductive Emit
  | finished (path : String)
  | error (msg : String)
deriving DecidableEq

/-- The source's audio-failure marker scanned for in ffmpeg's stderr:
`b"Error opening input"`. -/
def audioErrorMarker : String := "Error opening input"

/-- The accepted exit statuses `(0, 255, -2)` of the first ffmpeg run. -/
def acceptedExit (r : Int) : Bool :=
  r == 0 || r == 255 || r == -2

/-- Outcomes of the external world during one `RecorderThread.run`:
whether each `Popen` raises (`launchOk`, `retryLaunchOk`), the first
process's exit status and captured stderr, and the retry process's exit
status.  (`retryReturncode` is listed because the real retry process has
one; the source discards it — `self._process.wait()` — so no definition
below reads it.) -/
structure RunEnv where
  launchOk : Bool
  returncode : Int
  stderr : String
  retryLaunchOk : Bool
  retryReturncode : Int
deriving DecidableEq

/-- What one `RecorderThread.run` did: the signal it emitted, how many
times `_retry_no_audio` ran, and the output path the retry recorded to
(if any). -/
structure RunResult where
  emit : Emit
  retries : Nat
  retryPath : Option String
deriving DecidableEq

namespace RecorderThread

/-- `RecorderThread._retry_no_audio`: relaunch ffmpeg without audio on
the same output path; emit `finished` after `wait()` returns, `error`
only if the `Popen` itself raises. -/
def retryNoAudio (outputPath : String) (env : RunEnv) : Emit :=
  if env.retryLaunchOk then .finished outputPath
  else .error "retry launch failed"

/-- `RecorderThread.run`: launch ffmpeg, wait; on an exit status outside
the accepted set with audio requested and the audio marker in stderr,
run the no-audio retry; otherwise emit `finished`.  A `Popen` exception
emits `error`. -/
def run (outputPath : String) (audio : Bool) (env : RunEnv) : RunResult :=
  if env.launchOk then
    if !acceptedExit env.returncode
        && audio && strContains env.stderr audioErrorMarker then
      { emit := retryNoAudio outputPath env
        retries := 1
        retryPath := some outputPath }
    else
      { emit := .finished outputPath, retries := 0, retryPath := none }
  else
    { emit := .error "launch failed", retries := 0, retryPath := none }

/-- Signal numbers used by the source. -/
def SIGINT : Nat := 2

/-- `signal.SIGKILL`, for contrast: the source never sends it. -/
def SIGKILL : Nat := 9

/-- A handle on the running ffmpeg process: its pid and whether
`poll()` reports it still running. -/
structure ProcHandle where
  pid : Nat
  running : Bool
deriving DecidableEq

/-- The outward effect of `RecorderThread.stop`: either nothing, or one
`os.killpg(pgid, sig)` call. -/
inductive StopAction
  | none
  | killpg (pgid : Nat) (sig : Nat)
deriving DecidableEq

/-- `RecorderThread.stop`: if a process exists and is still running,
send `SIGINT` to its process group (`os.getpgid` is the `pgidOf`
oracle); otherwise do nothing. -/
def stop (process : Option ProcHandle) (pgidOf : Nat → Nat) : StopAction :=
  match process with
  | Option.none => .none
  | some p => if p.running then .killpg (pgidOf p.pid) SIGINT else .none

end RecorderThread

/-! ## Filesystem model and GUI controller (`Recorder`) -/

/-- The directories that exist on disk. -/
structure FS where
  dirs : List String
deriving DecidableEq

/-- `Path(d).mkdir(exist_ok=True)`. -/
def FS.mkdirIfAbsent (fs : FS) (d : String) : FS :=
  if d ∈ fs.dirs then fs else ⟨d :: fs.dirs⟩

/-- The controller state carried by the `Recorder` window: the
`_recording` flag, the countdown timer and value, button enablement,
the status label, the save directory, plus instrumentation counting
encoder threads spawned and output files created (each `_start` does
exactly one of each). -/
structure RecorderState where
  recording : Bool
  cdTimerActive : Bool
  cdVal : Nat
  btnRecEnabled : Bool
  btnStopEnabled : Bool
  status : String
  dotSaved : Bool
  saveDir : String
  outPath : Option String
  spawnCount : Nat
  filesCreated : Nat
deriving DecidableEq

/-- The controller phases of the spec's state machine, read off the
concrete widget state. -/
inductive Phase
  | idle | countingDown | recording
deriving DecidableEq

/-- Phase: `Recording` while `_recording` holds, `CountingDown` while
the countdown timer runs, `Idle` otherwise. -/
def RecorderState.phase (s : RecorderState) : Phase :=
  if s.recording then .recording
  else if s.cdTimerActive then .countingDown
  else .idle

namespace Recorder

/-- The initial widget state built in `Recorder.__init__` (before
`mkdir`): not recording, default save dir `home/Videos`, status
"Ready". -/
def initState (home : String) : RecorderState :=
  { recording := false, cdTimerActive := false, cdVal := 0
    btnRecEnabled := true, btnStopEnabled := false
    status := "Ready", dotSaved := false
    saveDir := home ++ "/Videos", outPath := none
    spawnCount := 0, filesCreated := 0 }

/-- `Recorder.__init__`: set the default save directory and create it
if absent. -/
def init (fs : FS) (home : String) : RecorderState × FS :=
  (initState home, fs.mkdirIfAbsent (home ++ "/Videos"))

/-- The output path derived in `Recorder._start`:
`os.path.join(save_dir, f"rec_{ts}.{fmt}")`. -/
def mkOutPath (saveDir ts fmt : String) : String :=
  saveDir ++ "/" ++ "rec_" ++ ts ++ "." ++ fmt

/-- `Recorder._start`: derive the timestamped output path, spawn the
recorder thread (one process launch, one file created), flip to
recording.  The filesystem is returned untouched: `_start` performs no
directory creation. -/
def start (s : RecorderState) (fs : FS) (ts fmt : String) :
    RecorderState × FS :=
  ({ s with
      recording := true
      outPath := some (mkOutPath s.saveDir ts fmt)
      spawnCount := s.spawnCount + 1
      filesCreated := s.filesCreated + 1
      btnStopEnabled := true
      status := "Recording" },
   fs)

/-- `Recorder._on_record`: return immediately if `_recording`; else
begin the 3-second countdown. -/
def onRecord (s : RecorderState) : RecorderState :=
  if s.recording then s
  else
    { s with
        cdVal := 3
        btnRecEnabled := false
        status := "Starting in 3…"
        cdTimerActive := true }

/-- `Recorder._tick_cd`: decrement the countdown; at zero, stop the
countdown timer and call `_start`. -/
def tickCd (s : RecorderState) (fs : FS) (ts fmt : String) :
    RecorderState × FS :=
  let v := s.cdVal - 1
  if 0 < v then
    ({ s with cdVal := v, status := "Starting in " ++ toString v ++ "…" },
     fs)
  else
    start { s with cdVal := v, cdTimerActive := false } fs ts fmt

/-- `Recorder._on_stop`: stop the thread (signal sent separately via
`RecorderThread.stop`), clear `_recording`, reset the buttons, show
"Saving…". -/
def onStop (s : RecorderState) : RecorderState :=
  { s with
      recording := false
      btnRecEnabled := true
      btnStopEnabled := false
      status := "Saving…" }

/-- `Recorder._on_done`: green dot, status "Saved". -/
def onDone (s : RecorderState) : RecorderState :=
  { s with dotSaved := true, status := "Saved" }

/-- `Recorder._on_err`: grey dot, status "Error", clear `_recording`,
reset the buttons. -/
def onErr (s : RecorderState) : RecorderState :=
  { s with
      dotSaved := false
      status := "Error"
      recording := false
      btnRecEnabled := true
      btnStopEnabled := false }

/-- Dispatch of the thread's signal to the connected slot. -/
def handleEmit (s : RecorderState) : Emit → RecorderState
  | .finished _ => onDone s
  | .error _ => onErr s

end Recorder

/-! ## Configuration persistence -/

/-- Modelled from the spec: the repository contains a second (GTK)
application that is not among the provided sources; the spec's
"Persisted state" contract — a single plain-text configuration file
storing the last-used output directory path — belongs to it.  The
PySide6 variant in the sources keeps `_save_dir` in memory only.
`ConfigFS` is the configuration file's content, `none` when the file
does not exist. -/
structure ConfigFS where
  configFile : Option String
deriving DecidableEq

/-- Modelled from the spec: at program startup the configuration file
is read to initialise the destination folder, falling back to a default
when the file is absent. -/
def Config.readStartupDir (cfs : ConfigFS) (defaultDir : String) : String :=
  cfs.configFile.getD defaultDir

/-- Modelled from the spec: whenever the user changes the destination
folder, the new path is written to the configuration file. -/
def Config.changeDir (_cfs : ConfigFS) (newDir : String) : ConfigFS :=
  ⟨some newDir⟩

/-! ## Substring lemmas -/

theorem listPrefix_append (n b : List Char) :
    listPrefix n (n ++ b) = true := by
  induction n with
  | nil => rfl
  | cons a as ih => simp [listPrefix, ih]

theorem listContains_append_middle (a n b : List Char) :
    listContains n (a ++ (n ++ b)) = true := by
  induction a with
  | nil =>
      cases n with
      | nil => cases b <;> simp [listContains, listPrefix]
      | cons c cs =>
          simp only [List.nil_append, List.cons_append, listContains,
            Bool.or_eq_true]
          exact Or.inl (listPrefix_append (c :: cs) b)
  | cons c cs ih =>
      simp [listContains, ih]

theorem toList_append (s t : String) :
    (s ++ t).toList = s.toList ++ t.toList := by
  cases s; cases t; rfl

theorem strContains_append_middle (a n b : String) :
    strContains (a ++ n ++ b) n = true := by
  have h : (a ++ n ++ b).toList = a.toList ++ (n.toList ++ b.toList) := by
    rw [toList_append, toList_append, List.append_assoc]
  rw [strContains, h]
  exact listContains_append_middle a.toList n.toList b.toList

/-! ## Theorems -/

/-- C4: the audio source resolver tries its steps in a fixed order and
returns `("pulse", S ++ ".monitor")` when the default-sink query
succeeds with non-failing (non-empty) value `S`; `("pulse", "default")`
when that query fails but the sound-server status probe succeeds; and
`("alsa", "default")` when the sound server is entirely absent. -/
theorem C4_audio_resolver_order :
    (∀ (env : AudioEnv) (S : String),
        env.defaultSink = some S → S ≠ "" →
        detect_audio_source env = ("pulse", S ++ ".monitor"))
    ∧ (∀ env : AudioEnv, env.defaultSink = none → env.infoOk = true →
        detect_audio_source env = ("pulse", "default"))
    ∧ (∀ env : AudioEnv, env.defaultSink = none → env.infoOk = false →
        detect_audio_source env = ("alsa", "default")) := by
  refine ⟨?_, ?_, ?_⟩
  · intro env S hsink hne
    simp [detect_audio_source, hsink, hne]
  · intro env hsink hinfo
    simp [detect_audio_source, hsink, hinfo]
  · intro env hsink hinfo
    simp [detect_audio_source, hsink, hinfo]

/-- Witness for C4: the three documented scenarios at concrete inputs,
including the spec's example sink name `"alsa_out"`. -/
theorem C4_audio_resolver_order_witness :
    detect_audio_source ⟨some "alsa_out", true⟩
        = ("pulse", "alsa_out.monitor")
    ∧ detect_audio_source ⟨none, true⟩ = ("pulse", "default")
    ∧ detect_audio_source ⟨none, false⟩ = ("alsa", "default") :=
  ⟨C4_audio_resolver_order.1 ⟨some "alsa_out", true⟩ "alsa_out" rfl
      (by decide),
   C4_audio_resolver_order.2.1 ⟨none, true⟩ rfl rfl,
   C4_audio_resolver_order.2.2 ⟨none, false⟩ rfl rfl⟩

/-- C9: the audio source resolver is total — for every combination of
outcomes of the two sound-server queries it returns a (driver, device)
pair of one of the three documented shapes, never a "no audio
available" outcome, because the final ALSA fallback is unconditional. -/
theorem C9_audio_resolver_never_none (env : AudioEnv) :
    detect_audio_source env = ("alsa", "default")
    ∨ detect_audio_source env = ("pulse", "default")
    ∨ ∃ s, env.defaultSink = some s
        ∧ detect_audio_source env = ("pulse", s ++ ".monitor") := by
  rcases env with ⟨sink, info⟩
  cases sink with
  | none => cases info <;> simp [detect_audio_source]
  | some s =>
      by_cases hs : s = ""
      · cases info <;> simp [detect_audio_source, hs]
      · exact Or.inr (Or.inr ⟨s, rfl, by simp [detect_audio_source, hs]⟩)

/-- C6: the quality → quantization mapping is the fixed table
Low→36, Medium→28, High→20, Ultra→14, and is strictly decreasing along
the ordinal quality scale. -/
theorem C6_crf_table_strictly_decreasing :
    (crfOf "Low" = "36" ∧ crfOf "Medium" = "28"
      ∧ crfOf "High" = "20" ∧ crfOf "Ultra" = "14")
    ∧ ∀ q1 q2 : Quality, q1.idx < q2.idx →
        Quality.crfNat q2 < Quality.crfNat q1 := by
  constructor
  · exact ⟨rfl, rfl, rfl, rfl⟩
  · intro q1 q2
    cases q1 <;> cases q2 <;> decide

/-- Witness for C6: instantiated at Low < Ultra. -/
theorem C6_crf_table_strictly_decreasing_witness :
    Quality.crfNat .ultra < Quality.crfNat .low :=
  C6_crf_table_strictly_decreasing.2 .low .ultra (by decide)

/-- C10: a quality string outside the fixed set still yields a command:
the lookup falls back to the Medium value "28", and the built command
coincides with the one built for "Medium". -/
theorem C10_unknown_quality_uses_default (q : String)
    (h : q ∉ ["Low", "Medium", "High", "Ultra"]) :
    crfOf q = "28"
    ∧ ∀ (display : String) (audio : Bool) (audioSrc : String × String)
        (outputPath : String),
        mainCmd display (crfOf q) audio audioSrc outputPath
          = mainCmd display (crfOf "Medium") audio audioSrc outputPath := by
  simp only [List.mem_cons, List.not_mem_nil, or_false, not_or] at h
  obtain ⟨h1, h2, h3, h4⟩ := h
  have e1 : (q == "Low") = false := beq_eq_false_iff_ne.mpr h1
  have e2 : (q == "Medium") = false := beq_eq_false_iff_ne.mpr h2
  have e3 : (q == "High") = false := beq_eq_false_iff_ne.mpr h3
  have e4 : (q == "Ultra") = false := beq_eq_false_iff_ne.mpr h4
  have hq : crfOf q = "28" := by
    simp [crfOf, crf_map, List.lookup, e1, e2, e3, e4]
  have hm : crfOf "Medium" = "28" := rfl
  exact ⟨hq, fun display audio audioSrc outputPath => by rw [hq, hm]⟩

/-- Witness for C10: the quality string "Potato". -/
theorem C10_unknown_quality_uses_default_witness :
    "Potato" ∉ ["Low", "Medium", "High", "Ultra"]
    ∧ crfOf "Potato" = "28"
    ∧ mainCmd ":0" (crfOf "Potato") true ("pulse", "default") "/t/o.mp4"
        = mainCmd ":0" (crfOf "Medium") true ("pulse", "default")
            "/t/o.mp4" :=
  ⟨by decide,
   (C10_unknown_quality_uses_default "Potato" (by decide)).1,
   (C10_unknown_quality_uses_default "Potato" (by decide)).2
      ":0" true ("pulse", "default") "/t/o.mp4"⟩

/-- C1: with audio enabled, a first run whose exit status is outside
the accepted set and whose stderr contains the audio-device-open
failure marker triggers exactly one retry, on the same output path,
with a command identical to the main command built with audio disabled;
no run ever retries more than once; and a retry whose process launches
reports completion — the GUI shows "Saved", not "Error". -/
theorem C1_single_no_audio_retry (path : String) (env : RunEnv)
    (hl : env.launchOk = true)
    (hr : acceptedExit env.returncode = false)
    (hm : strContains env.stderr audioErrorMarker = true) :
    (RecorderThread.run path true env).retries = 1
    ∧ (RecorderThread.run path true env).retryPath = some path
    ∧ (∀ (p : String) (a : Bool) (e : RunEnv),
        (RecorderThread.run p a e).retries ≤ 1)
    ∧ (∀ (display crf p : String) (src : String × String),
        retryCmd display crf p = mainCmd display crf false src p)
    ∧ (env.retryLaunchOk = true →
        (RecorderThread.run path true env).emit = Emit.finished path
        ∧ ∀ s : RecorderState,
            (Recorder.handleEmit s
              (RecorderThread.run path true env).emit).status = "Saved") := by
  refine ⟨?_, ?_, ?_, ?_, ?_⟩
  · simp [RecorderThread.run, hl, hr, hm]
  · simp [RecorderThread.run, hl, hr, hm]
  · intro p a e
    simp only [RecorderThread.run]
    split
    · split <;> simp
    · simp
  · intro display crf p src
    rfl
  · intro hrl
    constructor
    · simp [RecorderThread.run, hl, hr, hm, RecorderThread.retryNoAudio,
        hrl]
    · intro s
      simp [RecorderThread.run, hl, hr, hm, RecorderThread.retryNoAudio,
        hrl, Recorder.handleEmit, Recorder.onDone]

/-- Witness for C1: a concrete failing first run (exit status 1,
marker in stderr) whose retry launches. -/
theorem C1_single_no_audio_retry_witness :
    acceptedExit 1 = false
    ∧ strContains "ffmpeg: Error opening input: pulse" audioErrorMarker
        = true
    ∧ (RecorderThread.run "/t/r.mp4" true
        ⟨true, 1, "ffmpeg: Error opening input: pulse", true, 0⟩).retries
        = 1
    ∧ (RecorderThread.run "/t/r.mp4" true
        ⟨true, 1, "ffmpeg: Error opening input: pulse", true, 0⟩).emit
        = Emit.finished "/t/r.mp4" :=
  ⟨by decide, by decide,
   (C1_single_no_audio_retry "/t/r.mp4"
      ⟨true, 1, "ffmpeg: Error opening input: pulse", true, 0⟩
      rfl (by decide) (by decide)).1,
   ((C1_single_no_audio_retry "/t/r.mp4"
      ⟨true, 1, "ffmpeg: Error opening input: pulse", true, 0⟩
      rfl (by decide) (by decide)).2.2.2.2 rfl).1⟩

/-- C2 counterexample: with audio on, a failing first run carrying the
marker, and a retry whose process launches but then exits abnormally
(status 1): the thread still emits `finished` and the GUI shows
"Saved" — it never reaches "Error", contradicting the claim that an
abnormally exiting retry is reported as a failure. -/
theorem C2_retry_abnormal_exit_still_reports_saved :
    (⟨true, 1, "ffmpeg: Error opening input: busy", true, 1⟩
        : RunEnv).retryReturncode ≠ 0
    ∧ (RecorderThread.run "/t/a.mp4" true
        ⟨true, 1, "ffmpeg: Error opening input: busy", true, 1⟩).retries
        = 1
    ∧ (RecorderThread.run "/t/a.mp4" true
        ⟨true, 1, "ffmpeg: Error opening input: busy", true, 1⟩).emit
        = Emit.finished "/t/a.mp4"
    ∧ (Recorder.handleEmit (Recorder.initState "/home/u")
        (RecorderThread.run "/t/a.mp4" true
          ⟨true, 1, "ffmpeg: Error opening input: busy", true, 1⟩).emit
        ).status = "Saved" := by
  refine ⟨by decide, by decide, by decide, by decide⟩

/-- C2 (amended): after the no-audio retry is triggered, the Error
state is reached exactly when the retry's process fails to launch; a
retry whose process launches reports completion regardless of its exit
status, which the source discards. -/
theorem C2_error_only_on_retry_launch_failure (path : String)
    (env : RunEnv)
    (hl : env.launchOk = true)
    (hr : acceptedExit env.returncode = false)
    (hm : strContains env.stderr audioErrorMarker = true) :
    (env.retryLaunchOk = false →
      (∃ m, (RecorderThread.run path true env).emit = Emit.error m)
      ∧ ∀ s : RecorderState,
          (Recorder.handleEmit s
            (RecorderThread.run path true env).emit).status = "Error"
          ∧ (Recorder.handleEmit s
              (RecorderThread.run path true env).emit).recording = false)
    ∧ (env.retryLaunchOk = true →
        (RecorderThread.run path true env).emit = Emit.finished path) := by
  constructor
  · intro hrl
    constructor
    · exact ⟨"retry launch failed",
        by simp [RecorderThread.run, hl, hr, hm,
          RecorderThread.retryNoAudio, hrl]⟩
    · intro s
      constructor <;>
        simp [RecorderThread.run, hl, hr, hm,
          RecorderThread.retryNoAudio, hrl, Recorder.handleEmit,
          Recorder.onErr]
  · intro hrl
    simp [RecorderThread.run, hl, hr, hm, RecorderThread.retryNoAudio,
      hrl]

/-- Witness for C2 (amended): a concrete run whose retry fails to
launch ends in the Error state. -/
theorem C2_error_only_on_retry_launch_failure_witness :
    acceptedExit 1 = false
    ∧ strContains "x Error opening input y" audioErrorMarker = true
    ∧ (Recorder.handleEmit (Recorder.initState "/home/u")
        (RecorderThread.run "/t/b.mp4" true
          ⟨true, 1, "x Error opening input y", false, 0⟩).emit
        ).status = "Error" :=
  ⟨by decide, by decide,
   (((C2_error_only_on_retry_launch_failure "/t/b.mp4"
      ⟨true, 1, "x Error opening input y", false, 0⟩
      rfl (by decide) (by decide)).1 rfl).2
      (Recorder.initState "/home/u")).1⟩

/-- A concrete mid-countdown controller state (countdown at 2). -/
def countingDownExample : RecorderState :=
  { recording := false, cdTimerActive := true, cdVal := 2
    btnRecEnabled := false, btnStopEnabled := false
    status := "Starting in 2…", dotSaved := false
    saveDir := "/home/u/Videos", outPath := none
    spawnCount := 0, filesCreated := 0 }

/-- A concrete recording controller state. -/
def recordingExample : RecorderState :=
  { recording := true, cdTimerActive := false, cdVal := 0
    btnRecEnabled := false, btnStopEnabled := true
    status := "Recording", dotSaved := false
    saveDir := "/home/u/Videos"
    outPath := some "/home/u/Videos/rec_20260101_120000.mp4"
    spawnCount := 1, filesCreated := 1 }

/-- A concrete idle controller state whose save directory does not
exist on the empty filesystem. -/
def idleExample : RecorderState :=
  { recording := false, cdTimerActive := false, cdVal := 0
    btnRecEnabled := true, btnStopEnabled := false
    status := "Ready", dotSaved := false
    saveDir := "/home/u/Videos", outPath := none
    spawnCount := 0, filesCreated := 0 }

/-- C3 counterexample: in a CountingDown state (not Idle), a
`requestStart` call is not a no-op — it resets the countdown to 3 and
changes the status label, so the controller state does change. -/
theorem C3_requestStart_not_noop_while_counting_down :
    countingDownExample.phase = Phase.countingDown
    ∧ Recorder.onRecord countingDownExample ≠ countingDownExample := by
  refine ⟨by decide, ?_⟩
  intro h
  have : (Recorder.onRecord countingDownExample).cdVal
      = countingDownExample.cdVal := by rw [h]
  simp [Recorder.onRecord, countingDownExample] at this

/-- C3 (amended): `requestStart` is a strict no-op while Recording; in
every state (CountingDown included) it spawns no encoder process,
creates no output file, and does not change the recording flag — so at
most one session is ever active — though while CountingDown it does
reset the countdown. -/
theorem C3_requestStart_guard (s : RecorderState) :
    (s.phase = Phase.recording → Recorder.onRecord s = s)
    ∧ (Recorder.onRecord s).spawnCount = s.spawnCount
    ∧ (Recorder.onRecord s).filesCreated = s.filesCreated
    ∧ (Recorder.onRecord s).recording = s.recording := by
  refine ⟨?_, ?_, ?_, ?_⟩
  · intro h
    have hb : s.recording = true := by
      cases hb : s.recording with
      | true => rfl
      | false =>
          exfalso
          by_cases hc : s.cdTimerActive <;>
            simp [RecorderState.phase, hb, hc] at h
    simp [Recorder.onRecord, hb]
  all_goals by_cases hb : s.recording <;> simp [Recorder.onRecord, hb]

/-- Witness for C3 (amended): in the concrete Recording state the call
is an exact no-op. -/
theorem C3_requestStart_guard_witness :
    recordingExample.phase = Phase.recording
    ∧ Recorder.onRecord recordingExample = recordingExample :=
  ⟨by decide, (C3_requestStart_guard recordingExample).1 (by decide)⟩

/-- C5: while a recording is active, `stop` sends SIGINT (not
SIGKILL) to the child's process group, and once the child exits with an
accepted status (as it does when it honors the interrupt) the thread
emits `finished` and the controller — after its stop handler and the
completion handler — is Idle with status "Saved". -/
theorem C5_stop_sigint_then_idle
    (p : RecorderThread.ProcHandle) (pgidOf : Nat → Nat)
    (hp : p.running = true)
    (s : RecorderState) (_hrec : s.recording = true)
    (hcd : s.cdTimerActive = false)
    (path : String) (audio : Bool) (env : RunEnv)
    (hl : env.launchOk = true)
    (hok : acceptedExit env.returncode = true) :
    RecorderThread.stop (some p) pgidOf
        = RecorderThread.StopAction.killpg (pgidOf p.pid)
            RecorderThread.SIGINT
    ∧ RecorderThread.SIGINT ≠ RecorderThread.SIGKILL
    ∧ (RecorderThread.run path audio env).emit = Emit.finished path
    ∧ (Recorder.handleEmit (Recorder.onStop s)
        (RecorderThread.run path audio env).emit).phase = Phase.idle
    ∧ (Recorder.handleEmit (Recorder.onStop s)
        (RecorderThread.run path audio env).emit).status = "Saved" := by
  have hrun : (RecorderThread.run path audio env).emit
      = Emit.finished path := by
    simp [RecorderThread.run, hl, hok]
  refine ⟨?_, by decide, hrun, ?_, ?_⟩
  · simp [RecorderThread.stop, hp]
  · rw [hrun]
    simp [Recorder.handleEmit, Recorder.onDone, Recorder.onStop,
      RecorderState.phase, hcd]
  · rw [hrun]
    simp [Recorder.handleEmit, Recorder.onDone, Recorder.onStop]

/-- Witness for C5: a concrete running process (pid 1234) and a child
that exits with status -2 after honoring SIGINT. -/
theorem C5_stop_sigint_then_idle_witness :
    RecorderThread.stop (some ⟨1234, true⟩) (fun n => n)
        = RecorderThread.StopAction.killpg 1234 RecorderThread.SIGINT
    ∧ acceptedExit (-2) = true
    ∧ (Recorder.handleEmit (Recorder.onStop recordingExample)
        (RecorderThread.run "/t/s.mp4" true
          ⟨true, -2, "", true, 0⟩).emit).phase = Phase.idle :=
  ⟨(C5_stop_sigint_then_idle ⟨1234, true⟩ (fun n => n) rfl
      recordingExample (by decide) (by decide)
      "/t/s.mp4" true ⟨true, -2, "", true, 0⟩ rfl (by decide)).1,
   by decide,
   (C5_stop_sigint_then_idle ⟨1234, true⟩ (fun n => n) rfl
      recordingExample (by decide) (by decide)
      "/t/s.mp4" true ⟨true, -2, "", true, 0⟩ rfl (by decide)).2.2.2.1⟩

/-- C7 counterexample: a start request that does transition to
Recording, taken in a state whose destination directory is absent,
leaves the filesystem untouched — `_start` performs no directory
creation (that happens only once, in `__init__`). -/
theorem C7_start_creates_no_directory :
    "/home/u/Videos" ∉ (FS.mk []).dirs
    ∧ (Recorder.start idleExample ⟨[]⟩ "20260101_120000" "mp4").1.phase
        = Phase.recording
    ∧ (Recorder.start idleExample ⟨[]⟩ "20260101_120000" "mp4").2
        = FS.mk []
    ∧ idleExample.saveDir
        ∉ (Recorder.start idleExample ⟨[]⟩ "20260101_120000" "mp4").2.dirs
    := by
  refine ⟨by decide, by decide, by decide, by decide⟩

/-- C7 (amended): the default destination directory is created (if
absent) once, at `__init__` time; a start request itself never touches
the directory tree, and the output path it derives always embeds the
session's start timestamp. -/
theorem C7_init_mkdir_and_timestamped_name :
    (∀ (fs : FS) (home : String),
        (home ++ "/Videos") ∈ (Recorder.init fs home).2.dirs)
    ∧ (∀ (s : RecorderState) (fs : FS) (ts fmt : String),
        (Recorder.start s fs ts fmt).2 = fs)
    ∧ (∀ (s : RecorderState) (fs : FS) (ts fmt : String),
        (Recorder.start s fs ts fmt).1.outPath
          = some (Recorder.mkOutPath s.saveDir ts fmt))
    ∧ (∀ (saveDir ts fmt : String),
        strContains (Recorder.mkOutPath saveDir ts fmt) ts = true) := by
  refine ⟨?_, ?_, ?_, ?_⟩
  · intro fs home
    by_cases h : (home ++ "/Videos") ∈ fs.dirs <;>
      simp [Recorder.init, FS.mkdirIfAbsent, h]
  · intro s fs ts fmt
    rfl
  · intro s fs ts fmt
    rfl
  · intro saveDir ts fmt
    have h : (Recorder.mkOutPath saveDir ts fmt).toList
        = (saveDir.toList ++ ("/".toList ++ "rec_".toList))
          ++ (ts.toList ++ (".".toList ++ fmt.toList)) := by
      simp [Recorder.mkOutPath, toList_append]
    rw [strContains, h]
    exact listContains_append_middle _ _ _

/-- C8: the last-used output directory is persisted in the plain-text
configuration file — read at startup (falling back to the default when
the file is absent) and written on every destination-folder change, so
a change survives to the next startup.  (Persistence is modelled from
the spec; see `ConfigFS`.) -/
theorem C8_config_dir_persistence :
    (∀ (p defaultDir : String),
        Config.readStartupDir ⟨some p⟩ defaultDir = p)
    ∧ (∀ defaultDir : String,
        Config.readStartupDir ⟨none⟩ defaultDir = defaultDir)
    ∧ (∀ (cfs : ConfigFS) (d : String),
        (Config.changeDir cfs d).configFile = some d)
    ∧ (∀ (cfs : ConfigFS) (d defaultDir : String),
        Config.readStartupDir (Config.changeDir cfs d) defaultDir = d) :=
  ⟨fun _ _ => rfl, fun _ => rfl, fun _ _ => rfl, fun _ _ _ => rfl⟩
